import Mathlib

/-!
Verification of the hyprconnect daemon core (crates/hyprconnectd/src/main.rs and
crates/hyprconnect-core/src/lib.rs) against its natural-language specification.

The Rust code is shallowly embedded: every external effect (the kdeconnect-cli
subprocess, busctl property and method calls, wl-paste, /proc/mounts, the
filesystem, xdg-open, fusermount/umount and the wall clock) is captured in an
explicit `Env` record, and each Rust function becomes a pure Lean function of
that environment.  `Except String` models anyhow::Result; `Except.error e`
carries the error message the Rust code would produce.
-/

namespace Hyprconnect

/-- Device record from hyprconnect-core (struct DeviceState).  Rust u8 fields
are embedded as Nat; the chrono timestamp is abstracted as a Nat instant. -/
structure DeviceState where
  id : String
  name : String
  reachable : Bool
  paired : Bool
  mounted : Bool
  mount_point : Option String
  battery_percent : Option Nat
  charging : Option Bool
  signal_percent : Option Nat
  network_type : Option String
deriving Repr, DecidableEq

/-- Full snapshot from hyprconnect-core (struct DaemonState). -/
structure DaemonState where
  devices : List DeviceState
  updated_at : Option Nat
deriving Repr, DecidableEq

/-- IPC response record from hyprconnect-core (struct IpcResponse). -/
structure IpcResponse where
  ok : Bool
  message : Option String
  state : Option DaemonState
deriving Repr, DecidableEq

/-- Media actions from hyprconnect-core (enum MediaAction). -/
inductive MediaAction where
  | status
  | playPause
  | next
  | previous
  | stop
  | seek (ms : Int)
  | volumeSet (value : Nat)
  | playerList
  | playerSet (name : String)
deriving Repr, DecidableEq

/-- IPC requests from hyprconnect-core (enum IpcRequest). -/
inductive IpcRequest where
  | getState
  | shareFile (path : String) (device : Option String)
  | shareUrl (url : String) (device : Option String)
  | shareClipboard (device : Option String)
  | ping (message : Option String) (device : Option String)
  | pair (device : String)
  | unpair (device : String)
  | find (device : Option String)
  | refreshNetwork
  | mount (device : Option String)
  | openMount (device : Option String)
  | toggleMount (device : Option String)
  | media (device : Option String) (action : MediaAction)
deriving Repr, DecidableEq

/-- The daemon-side shared handle (struct Shared): the current snapshot held by
the StateStore plus the immutable config fields the core consults.  Only
default_device is read by the functions modelled here. -/
structure Shared where
  state : DaemonState
  defaultDevice : Option String
deriving Repr

/-- Outcome of spawning one external process: spawn failure, or an exit with a
success flag, captured stdout and captured stderr. -/
inductive CmdOut where
  | spawnFail
  | exit (success : Bool) (stdout stderr : String)
deriving Repr

/-- The external world as the daemon observes it.  Polling loops re-query the
world; tick `k` is the state of the world at the k-th 100ms-spaced probe of a
convergence loop (tick 0 is the instant an operation or poll cycle starts). -/
structure Env where
  /-- command_exists "kdeconnect-cli" -/
  kdeconnectExists : Bool
  /-- command_exists "busctl" -/
  busctlExists : Bool
  /-- outcome of invoking kdeconnect-cli with the given argument list at tick k -/
  kdeAt : Nat → List String → CmdOut
  /-- lines of /proc/mounts at tick k (read failure is modelled as no lines) -/
  procMountsAt : Nat → List String
  /-- regex line-parse of list_devices, abstracted as a pure function of the
      tool stdout; every theorem below quantifies over all parse outcomes, so
      the two accepted line formats are not re-derived here -/
  parseDeviceLines : String → List (String × String)
  /-- outcome of busctl get-property for (object path, interface, property) -/
  busPropAt : String → String → String → CmdOut
  /-- outcome of busctl call for (object path, interface, member, tail args) -/
  busCallAt : String → String → String → List String → CmdOut
  /-- outcome of busctl set-property for (object path, interface, property, signature, value) -/
  busSetAt : String → String → String → String → String → CmdOut
  /-- outcome of wl-paste -n -/
  wlPaste : CmdOut
  /-- filesystem existence test used by internal_storage_path -/
  pathExists : String → Bool
  /-- whether spawning xdg-open succeeds -/
  xdgOpenOk : Bool
  /-- exit success of fusermount -u path -/
  fusermountOk : String → Bool
  /-- exit success of umount path -/
  umountOk : String → Bool
  /-- Utc::now() at snapshot assembly, abstracted as a Nat instant -/
  now : Nat

/-- ASCII whitespace, the restriction of Rust char::is_whitespace that all
the embedded call sites ever see. -/
def isAsciiWs (c : Char) : Bool :=
  c == ' ' || c == '\t' || c == '\n' || c == '\r'

/-- Whitespace trim on a character list. -/
def trimChars (cs : List Char) : List Char :=
  ((cs.dropWhile isAsciiWs).reverse.dropWhile isAsciiWs).reverse

/-- Rust str::trim (kernel-reducible reimplementation over the character
list, so concrete runs of the model evaluate inside proofs). -/
def rustTrim (s : String) : String :=
  String.mk (trimChars s.data)

/-- Accumulator loop behind splitWs. -/
def splitWsGo : List Char → List Char → List String
  | acc, [] => if acc.isEmpty then [] else [String.mk acc.reverse]
  | acc, c :: cs =>
      if isAsciiWs c then
        if acc.isEmpty then splitWsGo [] cs
        else String.mk acc.reverse :: splitWsGo [] cs
      else splitWsGo (c :: acc) cs

/-- Rust split_whitespace. -/
def splitWs (s : String) : List String :=
  splitWsGo [] s.data

/-- Accumulator loop behind splitChar. -/
def splitCharGo (sep : Char) : List Char → List Char → List (List Char)
  | acc, [] => [acc.reverse]
  | acc, c :: cs =>
      if c == sep then acc.reverse :: splitCharGo sep [] cs
      else splitCharGo sep (c :: acc) cs

/-- Split on a single separator character, as String.splitOn with a
one-character pattern. -/
def splitChar (sep : Char) (s : String) : List String :=
  (splitCharGo sep [] s.data).map String.mk

/-- Strip one trailing carriage return, as Rust str::lines does per line. -/
def dropTrailingCR (l : List Char) : List Char :=
  match l.reverse with
  | '\r' :: rest => rest.reverse
  | _ => l

/-- First line of a string, as Rust lines().next().unwrap_or_default(). -/
def firstLine (s : String) : String :=
  String.mk (dropTrailingCR ((splitChar '\n' s).headD "").data)

/-- Decimal accumulator behind parseNatDigits. -/
def digitsToNatGo : Nat → List Char → Option Nat
  | acc, [] => some acc
  | acc, c :: cs =>
      if '0' ≤ c ∧ c ≤ '9' then digitsToNatGo (acc * 10 + (c.toNat - 48)) cs
      else none

/-- One-or-more decimal digits to a Nat. -/
def parseNatDigits (cs : List Char) : Option Nat :=
  if cs.isEmpty then none else digitsToNatGo 0 cs

/-- Rust str::parse::<i32>: optional sign, one or more digits, i32 range. -/
def parseI32 (s : String) : Option Int :=
  let core : Option Int :=
    match s.data with
    | '-' :: cs => (parseNatDigits cs).map (fun n => -(n : Int))
    | '+' :: cs => (parseNatDigits cs).map (fun n => (n : Int))
    | cs => (parseNatDigits cs).map (fun n => (n : Int))
  match core with
  | some v => if -2147483648 ≤ v ∧ v ≤ 2147483647 then some v else none
  | none => none

/-- Join with single spaces, as String.intercalate of one space. -/
def joinWithSpace : List String → String
  | [] => ""
  | [a] => a
  | a :: rest => a ++ " " ++ joinWithSpace rest

/-- Join with newlines, as Rust slice join of a newline. -/
def joinLines : List String → String
  | [] => ""
  | [a] => a
  | a :: rest => a ++ "\n" ++ joinLines rest

/-- Rust str::parse::<bool>. -/
def parseRustBool (s : String) : Option Bool :=
  if s = "true" then some true
  else if s = "false" then some false
  else none

/-- Rust u8::try_from on an i32 value. -/
def u8TryFromInt (v : Int) : Option Nat :=
  if 0 ≤ v ∧ v ≤ 255 then some v.toNat else none

/-- run_kdeconnect (main.rs): exit 0 yields stdout, nonzero exit yields the
trimmed stderr (or a fixed message when stderr is empty). -/
def run_kdeconnect (env : Env) (k : Nat) (args : List String) : Except String String :=
  match env.kdeAt k args with
  | CmdOut.spawnFail => Except.error "failed to execute kdeconnect-cli"
  | CmdOut.exit true out _ => Except.ok out
  | CmdOut.exit false _ err =>
      let e := rustTrim err
      Except.error (if e = "" then "kdeconnect-cli failed" else e)

/-- Fallback clause of resolve_device (main.rs): first device in snapshot
order with reachable and paired, else the no-device error. -/
def resolveFallback (devices : List DeviceState) : Except String String :=
  match devices.find? (fun d => d.reachable && d.paired) with
  | some d => Except.ok d.id
  | none => Except.error "no paired and reachable KDE Connect device found"

/-- resolve_device (main.rs): explicit id only if paired and reachable in the
snapshot, else hard error; otherwise the configured default if paired and
reachable; otherwise the fallback. -/
def resolveDevice (devices : List DeviceState) (defaultDevice requested : Option String) :
    Except String String :=
  match requested with
  | some id =>
      if devices.any (fun d => d.id == id && d.paired && d.reachable) then
        Except.ok id
      else
        Except.error ("device \x27" ++ id ++ "\x27 is not both paired and reachable")
  | none =>
      match defaultDevice with
      | some id =>
          if devices.any (fun d => d.id == id && d.paired && d.reachable) then
            Except.ok id
          else resolveFallback devices
      | none => resolveFallback devices

/-- Bars-to-percent connectivity mapping from read_connectivity_for (main.rs):
if bars > 4 then 100 else bars.saturating_mul(25) on u8. -/
def barsToPercent (bars : Nat) : Nat :=
  if bars > 4 then 100 else min (bars * 25) 255

/-- run_busctl_get_property (main.rs): missing busctl and nonzero exits are
errors with fixed messages (a spawn failure is folded into the exit-failure
message, which no theorem distinguishes); success yields trimmed stdout. -/
def run_busctl_get_property (env : Env) (path iface prop : String) : Except String String :=
  if env.busctlExists = false then Except.error "busctl not found"
  else
    match env.busPropAt path iface prop with
    | CmdOut.spawnFail => Except.error "failed to execute busctl"
    | CmdOut.exit false _ _ => Except.error "dbus property not available"
    | CmdOut.exit true out _ => Except.ok (rustTrim out)

/-- run_busctl_call (main.rs). -/
def run_busctl_call (env : Env) (path iface member : String) (tailArgs : List String) :
    Except String Unit :=
  if env.busctlExists = false then Except.error "busctl not found"
  else
    match env.busCallAt path iface member tailArgs with
    | CmdOut.spawnFail => Except.error "failed to execute busctl call"
    | CmdOut.exit true _ _ => Except.ok ()
    | CmdOut.exit false _ err =>
        let e := rustTrim err
        Except.error (if e = "" then "busctl call failed" else e)

/-- run_busctl_set_property (main.rs). -/
def run_busctl_set_property (env : Env) (path iface prop sig value : String) :
    Except String Unit :=
  if env.busctlExists = false then Except.error "busctl not found"
  else
    match env.busSetAt path iface prop sig value with
    | CmdOut.spawnFail => Except.error "failed to execute busctl set-property"
    | CmdOut.exit true _ _ => Except.ok ()
    | CmdOut.exit false _ err =>
        let e := rustTrim err
        Except.error (if e = "" then "busctl set-property failed" else e)

/-- Object path for a per-device kdeconnect plugin. -/
def devicePluginPath (device plugin : String) : String :=
  "/modules/kdeconnect/devices/" ++ device ++ "/" ++ plugin

/-- read_dbus_int_prop (main.rs): the i32-parsed second whitespace token of the
busctl payload (the first token is the type signature). -/
def read_dbus_int_prop (env : Env) (device plugin iface prop : String) :
    Except String (Option Int) :=
  match run_busctl_get_property env (devicePluginPath device plugin) iface prop with
  | Except.error e => Except.error e
  | Except.ok out => Except.ok ((splitWs out)[1]?.bind parseI32)

/-- read_dbus_bool_prop (main.rs). -/
def read_dbus_bool_prop (env : Env) (device plugin iface prop : String) :
    Except String (Option Bool) :=
  match run_busctl_get_property env (devicePluginPath device plugin) iface prop with
  | Except.error e => Except.error e
  | Except.ok out => Except.ok ((splitWs out)[1]?.bind parseRustBool)

/-- Rust splitn(2, one space): the head before the first space, and the rest
of the string when a space exists. -/
def splitn2Space (s : String) : String × Option String :=
  match splitChar ' ' s with
  | [] => ("", none)
  | [a] => (a, none)
  | a :: rest => (a, some (joinWithSpace rest))

/-- Rust trim_matches of the double-quote character. -/
def trimMatchesQuote (s : String) : String :=
  String.mk (((s.data.dropWhile (fun c => c == '\x22')).reverse.dropWhile
    (fun c => c == '\x22')).reverse)

/-- read_dbus_string_prop (main.rs): trimmed remainder after the signature
token, stripped of surrounding quotes; empty results become None. -/
def read_dbus_string_prop (env : Env) (device plugin iface prop : String) :
    Except String (Option String) :=
  match run_busctl_get_property env (devicePluginPath device plugin) iface prop with
  | Except.error e => Except.error e
  | Except.ok out =>
      match (splitn2Space out).2 with
      | none => Except.ok none
      | some rest =>
          let raw := rustTrim rest
          if raw = "" then Except.ok none
          else
            let cleaned := trimMatchesQuote raw
            if cleaned = "" then Except.ok none else Except.ok (some cleaned)

/-- read_battery_for (main.rs): a failed bus read of either property fails the
whole query (the caller degrades it to absent fields); a charge outside u8
range becomes None via u8::try_from. -/
def read_battery_for (env : Env) (device : String) : Except String (Option Nat × Option Bool) :=
  match read_dbus_int_prop env device "battery" "org.kde.kdeconnect.device.battery" "charge" with
  | Except.error e => Except.error e
  | Except.ok chargeI =>
      match read_dbus_bool_prop env device "battery" "org.kde.kdeconnect.device.battery"
          "isCharging" with
      | Except.error e => Except.error e
      | Except.ok charging => Except.ok (chargeI.bind u8TryFromInt, charging)

/-- read_connectivity_for (main.rs). -/
def read_connectivity_for (env : Env) (device : String) :
    Except String (Option Nat × Option String) :=
  match read_dbus_int_prop env device "connectivity_report"
      "org.kde.kdeconnect.device.connectivity_report" "cellularNetworkStrength" with
  | Except.error e => Except.error e
  | Except.ok strengthI =>
      match read_dbus_string_prop env device "connectivity_report"
          "org.kde.kdeconnect.device.connectivity_report" "cellularNetworkType" with
      | Except.error e => Except.error e
      | Except.ok network_type =>
          Except.ok ((strengthI.bind u8TryFromInt).map barsToPercent, network_type)

/-- is_mountpoint_mounted (main.rs): some /proc/mounts line has the path as
its second whitespace column. -/
def is_mountpoint_mounted (mountsLines : List String) (path : String) : Bool :=
  mountsLines.any (fun line => (splitWs line)[1]? == some path)

/-- get_mount_point (main.rs): tool failure degrades to None, as does an empty
first line of the reported path. -/
def get_mount_point (env : Env) (k : Nat) (device : String) : Except String (Option String) :=
  match run_kdeconnect env k ["--device", device, "--get-mount-point"] with
  | Except.error _ => Except.ok none
  | Except.ok mount =>
      let path := rustTrim (firstLine mount)
      if path = "" then Except.ok none else Except.ok (some path)

/-- read_mount_state_for (main.rs): mounted iff a non-empty mount point is
reported and that path appears in the live mount table. -/
def read_mount_state_for (env : Env) (k : Nat) (device : String) :
    Except String (Bool × Option String) :=
  match get_mount_point env k device with
  | Except.error e => Except.error e
  | Except.ok mount_point =>
      let mounted := match mount_point with
        | some p => is_mountpoint_mounted (env.procMountsAt k) p
        | none => false
      Except.ok (mounted, mount_point.filter (fun p => !p.isEmpty))

/-- list_devices (main.rs): the tool call, with the per-line regex parse
abstracted into the environment (see Env.parseDeviceLines). -/
def list_devices (env : Env) : Except String (List (String × String)) :=
  (run_kdeconnect env 0 ["--list-devices", "--id-name-only"]).map env.parseDeviceLines

/-- list_reachable_ids (main.rs): trimmed non-empty lines of the tool output. -/
def list_reachable_ids (env : Env) : Except String (List String) :=
  (run_kdeconnect env 0 ["--list-available", "--id-only"]).map
    (fun out => ((splitChar '\n' out).map rustTrim).filter (fun l => l ≠ ""))

/-- One paired-device entry assembled by refresh_state (main.rs): every
per-field query is independently best-effort, degrading to absent fields. -/
def pairedEntry (env : Env) (reachable : List String) (p : String × String) : DeviceState :=
  let ms := (read_mount_state_for env 0 p.1).toOption.getD (false, none)
  let bat := (read_battery_for env p.1).toOption.getD (none, none)
  let conn := (read_connectivity_for env p.1).toOption.getD (none, none)
  { id := p.1, name := p.2, reachable := reachable.contains p.1, paired := true,
    mounted := ms.1, mount_point := ms.2, battery_percent := bat.1, charging := bat.2,
    signal_percent := conn.1, network_type := conn.2 }

/-- Unpaired placeholder synthesized by refresh_state for a reachable id with
no paired entry. -/
def placeholderDevice (id : String) : DeviceState :=
  { id := id, name := id, reachable := true, paired := false, mounted := false,
    mount_point := none, battery_percent := none, charging := none,
    signal_percent := none, network_type := none }

/-- The second loop of refresh_state: append a placeholder for a reachable id
unless a device with that id is already present. -/
def addPlaceholder (acc : List DeviceState) (id : String) : List DeviceState :=
  if acc.any (fun d => d.id == id) then acc else acc ++ [placeholderDevice id]

/-- refresh_state (main.rs), as the pure snapshot computation.  A missing
kdeconnect-cli yields the empty snapshot; a failing list query fails the cycle
(the caller then keeps the previous snapshot).  The connect/disconnect
notification diff is a pure side effect on an external notifier and is not
modelled.  Installing the returned snapshot into the StateStore is modelled
separately (see StoreOp). -/
def refresh_state (env : Env) : Except String DaemonState :=
  if env.kdeconnectExists = false then
    Except.ok { devices := [], updated_at := some env.now }
  else
    match list_devices env with
    | Except.error e => Except.error e
    | Except.ok names =>
        match list_reachable_ids env with
        | Except.error e => Except.error e
        | Except.ok reachable =>
            Except.ok
              { devices := reachable.foldl addPlaceholder (names.map (pairedEntry env reachable)),
                updated_at := some env.now }

/-- Poll interval of the mount convergence loops (main.rs sleeps 100ms). -/
def mountPollIntervalMs : Nat := 100

/-- Deadline of the mount convergence loops (tokio::time::timeout of 1400ms). -/
def mountDeadlineMs : Nat := 1400

/-- Number of probes that fit inside the deadline: the loop probes at 0ms,
100ms, ..., 1300ms and the timeout cancels it at 1400ms. -/
def maxMountPolls : Nat := mountDeadlineMs / mountPollIntervalMs

/-- Loop body of wait_for_mount_point (main.rs), with the tokio timeout
rendered as fuel: each iteration probes tick k and sleeps one interval, and
the deadline cancels the loop after maxMountPolls probes.  An error from
get_mount_point would abort the loop, mirroring the inner question-mark. -/
def wait_for_mount_point_go (env : Env) (device : String) (must : Bool) :
    Nat → Nat → Except String String
  | 0, _ => Except.error ("timed out waiting for mount point for device " ++ device)
  | fuel+1, k =>
      match get_mount_point env k device with
      | Except.error e => Except.error e
      | Except.ok none => wait_for_mount_point_go env device must fuel (k+1)
      | Except.ok (some path) =>
          if is_mountpoint_mounted (env.procMountsAt k) path = must then Except.ok path
          else wait_for_mount_point_go env device must fuel (k+1)

/-- wait_for_mount_point (main.rs). -/
def wait_for_mount_point (env : Env) (device : String) (must : Bool) : Except String String :=
  wait_for_mount_point_go env device must maxMountPolls 0

/-- Loop body of wait_for_mount_state (main.rs), same fuel rendering. -/
def wait_for_mount_state_go (env : Env) (device : String) (expected : Bool) :
    Nat → Nat → Except String Unit
  | 0, _ =>
      Except.error ("timed out waiting for mount state \x27" ++ toString expected
        ++ "\x27 on device " ++ device)
  | fuel+1, k =>
      let ms := (read_mount_state_for env k device).toOption.getD (false, none)
      if ms.1 = expected then Except.ok ()
      else wait_for_mount_state_go env device expected fuel (k+1)

/-- wait_for_mount_state (main.rs). -/
def wait_for_mount_state (env : Env) (device : String) (expected : Bool) : Except String Unit :=
  wait_for_mount_state_go env device expected maxMountPolls 0

/-- mount_device (main.rs): issue the external mount command, then wait for a
mounted mount point under the deadline; an empty path is rejected. -/
def mount_device (env : Env) (device : String) : Except String String :=
  match run_kdeconnect env 0 ["--device", device, "--mount"] with
  | Except.error e => Except.error e
  | Except.ok _ =>
      match wait_for_mount_point env device true with
      | Except.error e => Except.error e
      | Except.ok path =>
          if path = "" then Except.error ("mount point is empty for device " ++ device)
          else Except.ok path

/-- internal_storage_path (main.rs). -/
def internal_storage_path (env : Env) (mount_point : String) : Except String String :=
  let target := mount_point ++ "/storage/emulated/0"
  if env.pathExists target = false then
    Except.error ("internal storage path not found: " ++ target)
  else Except.ok target

/-- open_device_mount (main.rs): mount, locate internal storage, hand off to
xdg-open without waiting for it. -/
def open_device_mount (env : Env) (device : String) : Except String String :=
  match mount_device env device with
  | Except.error e => Except.error e
  | Except.ok mount =>
      match internal_storage_path env mount with
      | Except.error e => Except.error e
      | Except.ok target =>
          if env.xdgOpenOk = false then Except.error "failed to spawn xdg-open"
          else Except.ok target

/-- unmount_path (main.rs): fusermount first, umount as fallback, error only
when both fail. -/
def unmount_path (env : Env) (path : String) : Except String Unit :=
  if env.fusermountOk path then Except.ok ()
  else if env.umountOk path then Except.ok ()
  else Except.error ("failed to unmount " ++ path ++ " with fusermount/umount")

/-- toggle_mount (main.rs).  The forced refresh_state calls after either
branch mutate the StateStore and discard their own result; the returned
message is unaffected, so they do not appear in this pure value. -/
def toggle_mount (env : Env) (sh : Shared) (device : Option String) : Except String String :=
  match resolveDevice sh.state.devices sh.defaultDevice device with
  | Except.error e => Except.error e
  | Except.ok dev =>
      match get_mount_point env 0 dev with
      | Except.error e => Except.error e
      | Except.ok mount_point =>
          let unmountBranch :=
            match mount_point with
            | some path => !path.isEmpty && is_mountpoint_mounted (env.procMountsAt 0) path
            | none => false
          match mount_point, unmountBranch with
          | some path, true =>
              match unmount_path env path with
              | Except.error e => Except.error e
              | Except.ok _ =>
                  match wait_for_mount_state env dev false with
                  | Except.error e => Except.error e
                  | Except.ok _ => Except.ok ("Unmounted " ++ dev ++ " from " ++ path)
          | _, _ =>
              match open_device_mount env dev with
              | Except.error e => Except.error e
              | Except.ok mount => Except.ok ("Mounted and opened " ++ dev ++ ": " ++ mount)

/-- read_clipboard (main.rs). -/
def read_clipboard (env : Env) : Except String String :=
  match env.wlPaste with
  | CmdOut.spawnFail => Except.error "failed to execute wl-paste"
  | CmdOut.exit false _ _ => Except.error "failed to read clipboard with wl-paste"
  | CmdOut.exit true out _ =>
      let text := rustTrim out
      if text = "" then Except.error "clipboard is empty" else Except.ok text

/-- share_path (main.rs). -/
def share_path (env : Env) (sh : Shared) (value : String) (device : Option String) :
    Except String String :=
  if rustTrim value = "" then Except.error "clipboard is empty"
  else
    match resolveDevice sh.state.devices sh.defaultDevice device with
    | Except.error e => Except.error e
    | Except.ok dev =>
        (run_kdeconnect env 0 ["--device", dev, "--share", value]).map
          (fun _ => "Shared to " ++ dev)

/-- parse_dbus_string (main.rs). -/
def parse_dbus_string (raw : String) : Option String :=
  let trimmed := rustTrim raw
  if trimmed.length < 3 then none
  else
    match (splitn2Space trimmed).2 with
    | none => none
    | some rest =>
        let val := rustTrim (trimMatchesQuote (rustTrim rest))
        if val = "" then none else some val

/-- parse_dbus_bool (main.rs). -/
def parse_dbus_bool (raw : String) : Option Bool :=
  (splitWs raw)[1]?.bind parseRustBool

/-- parse_dbus_int (main.rs). -/
def parse_dbus_int (raw : String) : Option Int :=
  (splitWs raw)[1]?.bind parseI32

/-- Fuel-driven scanner behind parse_dbus_string_array: all non-overlapping
maximal quoted non-empty substrings, as the regex quote-captures-quote finds
them.  The fuel is the character count, which each step strictly consumes. -/
def quotedSubstringsGo : Nat → List Char → List String
  | 0, _ => []
  | _, [] => []
  | fuel+1, c :: rest =>
      if c == '\x22' then
        let inside := rest.takeWhile (fun d => d != '\x22')
        let rest2 := rest.dropWhile (fun d => d != '\x22')
        match rest2 with
        | [] => []
        | _ :: tail =>
            if inside.isEmpty then quotedSubstringsGo fuel rest
            else String.mk inside :: quotedSubstringsGo fuel tail
      else quotedSubstringsGo fuel rest

/-- parse_dbus_string_array (main.rs). -/
def parse_dbus_string_array (raw : String) : List String :=
  quotedSubstringsGo raw.data.length raw.data

/-- media_status (main.rs): the five properties are read in sequence; note
each bus read is followed by the Rust question-mark, so a failed read aborts
the whole status, while only parse failures fall back to the defaults. -/
def media_status (env : Env) (path iface : String) : Except String String :=
  match run_busctl_get_property env path iface "player" with
  | Except.error e => Except.error e
  | Except.ok playerRaw =>
      let player := (parse_dbus_string playerRaw).getD "Unknown"
      match run_busctl_get_property env path iface "title" with
      | Except.error e => Except.error e
      | Except.ok titleRaw =>
          let title := (parse_dbus_string titleRaw).getD "--"
          match run_busctl_get_property env path iface "artist" with
          | Except.error e => Except.error e
          | Except.ok artistRaw =>
              let artist := (parse_dbus_string artistRaw).getD "--"
              match run_busctl_get_property env path iface "isPlaying" with
              | Except.error e => Except.error e
              | Except.ok isPlayingRaw =>
                  let is_playing := (parse_dbus_bool isPlayingRaw).getD false
                  match run_busctl_get_property env path iface "volume" with
                  | Except.error e => Except.error e
                  | Except.ok volumeRaw =>
                      let volume := (parse_dbus_int volumeRaw).getD 0
                      Except.ok ("Player: " ++ player ++ "\nState: "
                        ++ (if is_playing then "Playing" else "Paused")
                        ++ "\nTitle: " ++ title ++ "\nArtist: " ++ artist
                        ++ "\nVolume: " ++ toString volume ++ "%")

/-- media_player_list (main.rs). -/
def media_player_list (env : Env) (path iface : String) : Except String String :=
  match run_busctl_get_property env path iface "playerList" with
  | Except.error e => Except.error e
  | Except.ok raw =>
      let players := parse_dbus_string_array raw
      if players.isEmpty then Except.ok "No phone media players reported"
      else Except.ok ("Players:\n" ++ joinLines players)

/-- media_send_action (main.rs). -/
def media_send_action (env : Env) (path action : String) : Except String Unit :=
  run_busctl_call env path "org.kde.kdeconnect.device.mprisremote" "sendAction" ["s", action]

/-- media_seek (main.rs). -/
def media_seek (env : Env) (path : String) (ms : Int) : Except String Unit :=
  run_busctl_call env path "org.kde.kdeconnect.device.mprisremote" "seek" ["i", toString ms]

/-- media_set_volume (main.rs). -/
def media_set_volume (env : Env) (path : String) (value : Nat) : Except String Unit :=
  run_busctl_set_property env path "org.kde.kdeconnect.device.mprisremote" "volume" "i"
    (toString value)

/-- media_set_player (main.rs). -/
def media_set_player (env : Env) (path name : String) : Except String Unit :=
  run_busctl_set_property env path "org.kde.kdeconnect.device.mprisremote" "player" "s" name

/-- handle_media_action (main.rs). -/
def handle_media_action (env : Env) (sh : Shared) (device : Option String)
    (action : MediaAction) : Except String String :=
  match resolveDevice sh.state.devices sh.defaultDevice device with
  | Except.error e => Except.error e
  | Except.ok dev =>
      let path := "/modules/kdeconnect/devices/" ++ dev ++ "/mprisremote"
      let iface := "org.kde.kdeconnect.device.mprisremote"
      match action with
      | MediaAction.status => media_status env path iface
      | MediaAction.playPause =>
          (media_send_action env path "PlayPause").map (fun _ => "Sent PlayPause to " ++ dev)
      | MediaAction.next =>
          (media_send_action env path "Next").map (fun _ => "Sent Next to " ++ dev)
      | MediaAction.previous =>
          (media_send_action env path "Previous").map (fun _ => "Sent Previous to " ++ dev)
      | MediaAction.stop =>
          (media_send_action env path "Stop").map (fun _ => "Sent Stop to " ++ dev)
      | MediaAction.seek ms =>
          (media_seek env path ms).map (fun _ => "Seeked " ++ dev ++ " by " ++ toString ms ++ "ms")
      | MediaAction.volumeSet value =>
          (media_set_volume env path value).map
            (fun _ => "Set phone media volume to " ++ toString value ++ "% on " ++ dev)
      | MediaAction.playerList => media_player_list env path iface
      | MediaAction.playerSet name =>
          (media_set_player env path name).map
            (fun _ => "Set active phone player to \x27" ++ name ++ "\x27")

/-- into_response (main.rs). -/
def into_response (result : Except String String) : IpcResponse :=
  match result with
  | Except.ok message => { ok := true, message := some message, state := none }
  | Except.error err => { ok := false, message := some err, state := none }

/-- handle_stream (main.rs), from the parsed request to the response value.
Socket reads and writes are outside the model; the input Except carries the
serde parse outcome, and an Except.error result models handle_stream
returning Err before any response is written (the accept loop then only logs
it, so the connection closes with no response while the process continues). -/
def handle_stream (env : Env) (sh : Shared) (parsed : Except String IpcRequest) :
    Except String IpcResponse :=
  match parsed with
  | Except.error e => Except.error e
  | Except.ok req =>
      match req with
      | IpcRequest.getState =>
          Except.ok { ok := true, message := none, state := some sh.state }
      | IpcRequest.shareFile path device =>
          Except.ok (into_response (share_path env sh path device))
      | IpcRequest.shareUrl url device =>
          Except.ok (into_response (share_path env sh url device))
      | IpcRequest.shareClipboard device =>
          match read_clipboard env with
          | Except.error e => Except.error e
          | Except.ok clip => Except.ok (into_response (share_path env sh clip device))
      | IpcRequest.ping message device =>
          match resolveDevice sh.state.devices sh.defaultDevice device with
          | Except.error e => Except.error e
          | Except.ok dev =>
              let ping_msg := message.getD "Ping from Hyprconnect"
              Except.ok (into_response
                ((run_kdeconnect env 0 ["--device", dev, "--ping-msg", ping_msg]).map
                  (fun _ => "Ping sent to " ++ dev)))
      | IpcRequest.pair device =>
          Except.ok (into_response
            ((run_kdeconnect env 0 ["--device", device, "--pair"]).map
              (fun _ => "Pair request sent to " ++ device)))
      | IpcRequest.unpair device =>
          Except.ok (into_response
            ((run_kdeconnect env 0 ["--device", device, "--unpair"]).map
              (fun _ => "Unpaired " ++ device)))
      | IpcRequest.find device =>
          match resolveDevice sh.state.devices sh.defaultDevice device with
          | Except.error e => Except.error e
          | Except.ok dev =>
              Except.ok (into_response
                ((run_kdeconnect env 0 ["--device", dev, "--ring"]).map
                  (fun _ => "Ringing " ++ dev)))
      | IpcRequest.refreshNetwork =>
          Except.ok (into_response
            ((run_kdeconnect env 0 ["--refresh"]).map
              (fun _ => "Refreshed KDE Connect device discovery")))
      | IpcRequest.mount device =>
          match resolveDevice sh.state.devices sh.defaultDevice device with
          | Except.error e => Except.error e
          | Except.ok dev =>
              Except.ok (into_response
                ((mount_device env dev).map (fun m => "Mounted " ++ dev ++ " at " ++ m)))
      | IpcRequest.openMount device =>
          match resolveDevice sh.state.devices sh.defaultDevice device with
          | Except.error e => Except.error e
          | Except.ok dev =>
              Except.ok (into_response
                ((open_device_mount env dev).map
                  (fun m => "Opened mount for " ++ dev ++ ": " ++ m)))
      | IpcRequest.toggleMount device =>
          Except.ok (into_response (toggle_mount env sh device))
      | IpcRequest.media device action =>
          Except.ok (into_response (handle_media_action env sh device action))

/-- The request shapes whose handler arm keeps every operation failure inside
into_response.  The remaining arms (ShareClipboard, Ping, Find, Mount,
OpenMount) apply the Rust question-mark to read_clipboard or resolve_device
before reaching into_response. -/
def alwaysWritesResponse : IpcRequest → Bool
  | IpcRequest.shareClipboard _ => false
  | IpcRequest.ping _ _ => false
  | IpcRequest.find _ => false
  | IpcRequest.mount _ => false
  | IpcRequest.openMount _ => false
  | _ => true

/-- is_refresh_signal (main.rs). -/
def is_refresh_signal (interface member : String) : Bool :=
  if interface = "org.kde.kdeconnect.device" then
    member == "reachableChanged" || member == "pairStateChanged"
  else if interface = "org.kde.kdeconnect.device.battery" then
    member == "refreshed"
  else if interface = "org.kde.kdeconnect.device.connectivity_report" then
    member == "refreshed"
  else false

/-- Debounce window of listen_for_kdeconnect_events (main.rs): 200ms. -/
def debounceWindowMs : Int := 200

/-- Debounce fold of listen_for_kdeconnect_events (main.rs): given the instant
of the last accepted trigger and the arrival instants (in ms) of the
qualifying signals (those passing the path and is_refresh_signal filters),
the instants whose signal triggers a refresh_state cycle.  A signal is
dropped when strictly less than 200ms elapsed since the last accepted one;
an accepted signal resets the window.  The loop initializes last_refresh one
second in the past, so with arrivals measured from stream start the initial
argument is -1000. -/
def acceptedTriggers : Int → List Int → List Int
  | _, [] => []
  | last, t :: ts =>
      if t - last < debounceWindowMs then acceptedTriggers last ts
      else t :: acceptedTriggers t ts

/-- One client-visible operation on the StateStore (Arc<RwLock<DaemonState>>):
a whole-snapshot replace (the single assignment under the write guard at the
end of refresh_state) or a read (the clone under the read guard).  Each
operation is one atomic step, which is exactly what the RwLock write guard
over a single whole-value assignment provides: the snapshot is fully
constructed before the guard is taken and no I/O happens under it. -/
inductive StoreOp where
  | replace (s : DaemonState)
  | read
deriving Repr, DecidableEq

/-- Results of the reads in a serialized history of StateStore operations. -/
def runStore : DaemonState → List StoreOp → List DaemonState
  | _, [] => []
  | _, StoreOp.replace s :: ops => runStore s ops
  | cur, StoreOp.read :: ops => cur :: runStore cur ops

/-! Concrete environments and snapshots used to instantiate the theorems. -/

/-- A world with no external tools at all. -/
def envDefault : Env :=
  { kdeconnectExists := false
    busctlExists := false
    kdeAt := fun _ _ => CmdOut.spawnFail
    procMountsAt := fun _ => []
    parseDeviceLines := fun _ => []
    busPropAt := fun _ _ _ => CmdOut.spawnFail
    busCallAt := fun _ _ _ _ => CmdOut.spawnFail
    busSetAt := fun _ _ _ _ _ => CmdOut.spawnFail
    wlPaste := CmdOut.spawnFail
    pathExists := fun _ => false
    xdgOpenOk := false
    fusermountOk := fun _ => false
    umountOk := fun _ => false
    now := 0 }

/-- A paired and reachable device with id a. -/
def devA : DeviceState :=
  { id := "a", name := "A", reachable := true, paired := true, mounted := false,
    mount_point := none, battery_percent := none, charging := none,
    signal_percent := none, network_type := none }

/-- A paired but unreachable device with id b. -/
def devB : DeviceState :=
  { id := "b", name := "B", reachable := false, paired := true, mounted := false,
    mount_point := none, battery_percent := none, charging := none,
    signal_percent := none, network_type := none }

/-- A shared handle with an empty snapshot and no configured default. -/
def sharedEmpty : Shared :=
  { state := { devices := [], updated_at := none }, defaultDevice := none }

/-- A world in which device d1 reports mount point /mnt/x and the OS mount
table lists /mnt/x as a mount target from tick 0 on; the mount command and
the list queries succeed. -/
def envMounted : Env :=
  { envDefault with
    kdeconnectExists := true
    kdeAt := fun _ args =>
      if args = ["--device", "d1", "--get-mount-point"] then
        CmdOut.exit true "/mnt/x\n" ""
      else if args = ["--list-devices", "--id-name-only"] then
        CmdOut.exit true "d1 Phone" ""
      else if args = ["--list-available", "--id-only"] then
        CmdOut.exit true "d1" ""
      else CmdOut.exit true "" ""
    parseDeviceLines := fun _ => [("d1", "Phone")]
    procMountsAt := fun _ => ["kio /mnt/x fuse rw 0 0"] }

/-- The device refresh_state produces in envMounted. -/
def devMounted : DeviceState :=
  { id := "d1", name := "Phone", reachable := true, paired := true, mounted := true,
    mount_point := some "/mnt/x", battery_percent := none, charging := none,
    signal_percent := none, network_type := none }

/-- The snapshot refresh_state produces in envMounted. -/
def stMounted : DaemonState :=
  { devices := [devMounted], updated_at := some 0 }

/-- A world whose battery plugin reports a charge of 150: kdeconnect-cli lists
one paired device dev1, busctl answers the two battery reads with i 150 and
b true, and every other query fails. -/
def envBattery150 : Env :=
  { envDefault with
    kdeconnectExists := true
    busctlExists := true
    kdeAt := fun _ args =>
      if args = ["--list-devices", "--id-name-only"] then
        CmdOut.exit true "dev1 Phone" ""
      else if args = ["--list-available", "--id-only"] then
        CmdOut.exit true "" ""
      else CmdOut.exit false "" ""
    parseDeviceLines := fun _ => [("dev1", "Phone")]
    busPropAt := fun _ _ prop =>
      if prop = "charge" then CmdOut.exit true "i 150" ""
      else if prop = "isCharging" then CmdOut.exit true "b true" ""
      else CmdOut.exit false "" "" }

/-- The device refresh_state produces in envBattery150: battery_percent is
150, above the documented 0 to 100 range. -/
def devBattery150 : DeviceState :=
  { id := "dev1", name := "Phone", reachable := false, paired := true,
    mounted := false, mount_point := none, battery_percent := some 150,
    charging := some true, signal_percent := none, network_type := none }

/-- The snapshot refresh_state produces in envBattery150. -/
def stBattery150 : DaemonState :=
  { devices := [devBattery150], updated_at := some 0 }

/-- A world where the media player property read fails while every other
media property read succeeds. -/
def envMediaCex : Env :=
  { envDefault with
    busctlExists := true
    busPropAt := fun _ _ prop =>
      if prop = "player" then CmdOut.exit false "" ""
      else CmdOut.exit true "s \x22Spotify\x22" "" }

/-- A world where every media property read succeeds but none of the payloads
parses, so every Status field takes its default. -/
def envMediaDefaults : Env :=
  { envDefault with
    busctlExists := true
    busPropAt := fun _ _ _ => CmdOut.exit true "" "" }

/-- The object path media_status is called on for device d1. -/
def mediaPathD1 : String := "/modules/kdeconnect/devices/d1/mprisremote"

/-- The mprisremote interface name. -/
def mprisIface : String := "org.kde.kdeconnect.device.mprisremote"

/-- Membership in a Bool-valued any over the snapshot, the validity test
resolve_device applies to an id. -/
def idActionable (devices : List DeviceState) (id : String) : Bool :=
  devices.any (fun d => d.id == id && d.paired && d.reachable)

/-- What one probe of the mount convergence loop observes at tick k for the
Mounted target: the reported mount point when it is also a live mount-table
target, None otherwise. -/
def observedMounted (env : Env) (device : String) (k : Nat) : Option String :=
  match get_mount_point env k device with
  | Except.ok (some p) =>
      if is_mountpoint_mounted (env.procMountsAt k) p then some p else none
  | _ => none

/-- The empty snapshot stamped at instant 0. -/
def stEmpty0 : DaemonState := { devices := [], updated_at := some 0 }

/-- Decidable equality for Except, so model runs on concrete environments can
be checked by decide. -/
instance exceptDecEq {ε α : Type} [DecidableEq ε] [DecidableEq α] : DecidableEq (Except ε α)
  | Except.ok a, Except.ok b =>
      if h : a = b then isTrue (by rw [h]) else isFalse (by intro hc; cases hc; exact h rfl)
  | Except.error a, Except.error b =>
      if h : a = b then isTrue (by rw [h]) else isFalse (by intro hc; cases hc; exact h rfl)
  | Except.ok _, Except.error _ => isFalse (by intro hc; cases hc)
  | Except.error _, Except.ok _ => isFalse (by intro hc; cases hc)

/-! Theorems.  Each claim of the specification gets one theorem below;
helper lemmas carry the inductions they need. -/

theorem resolveDevice_some_eq (devices : List DeviceState) (dd : Option String) (id : String) :
    resolveDevice devices dd (some id) =
      if idActionable devices id then Except.ok id
      else Except.error ("device \x27" ++ id ++ "\x27 is not both paired and reachable") := rfl

theorem resolveDevice_none_some_eq (devices : List DeviceState) (id : String) :
    resolveDevice devices (some id) none =
      if idActionable devices id then Except.ok id else resolveFallback devices := rfl

theorem resolveDevice_none_none_eq (devices : List DeviceState) :
    resolveDevice devices none none = resolveFallback devices := rfl

theorem idActionable_of_mem {devices : List DeviceState} {d : DeviceState} {id : String}
    (hm : d ∈ devices) (hid : d.id = id) (hp : d.paired = true) (hr : d.reachable = true) :
    idActionable devices id = true := by
  unfold idActionable
  rw [List.any_eq_true]
  exact ⟨d, hm, by simp [hid, hp, hr]⟩

theorem resolveFallback_ok {devices : List DeviceState} {r : String}
    (h : resolveFallback devices = Except.ok r) :
    ∃ d, devices.find? (fun x => x.reachable && x.paired) = some d ∧ d.id = r := by
  unfold resolveFallback at h
  cases hf : devices.find? (fun x => x.reachable && x.paired) with
  | none => rw [hf] at h; cases h
  | some d => rw [hf] at h; cases h; exact ⟨d, rfl, rfl⟩

/-- C1: DeviceResolver precedence.  An explicit id succeeds exactly when it is
paired and reachable in the snapshot (and only ever yields that id); without
an explicit id, a paired-and-reachable configured default is returned exactly
when valid; otherwise the first paired-and-reachable device in snapshot
order; and the result is an error exactly when no paired-and-reachable
device exists at the point the fallback is reached. -/
theorem resolveDevice_precedence (devices : List DeviceState) (defaultDevice : Option String) :
    (∀ id, resolveDevice devices defaultDevice (some id) = Except.ok id ↔
        idActionable devices id = true)
    ∧ (∀ id r, resolveDevice devices defaultDevice (some id) = Except.ok r → r = id)
    ∧ (∀ id, idActionable devices id = false →
        resolveDevice devices defaultDevice (some id) =
          Except.error ("device \x27" ++ id ++ "\x27 is not both paired and reachable"))
    ∧ (∀ id, defaultDevice = some id →
        (resolveDevice devices defaultDevice none = Except.ok id ↔
          idActionable devices id = true))
    ∧ ((∀ id, defaultDevice = some id → idActionable devices id = false) →
        ∀ d, devices.find? (fun x => x.reachable && x.paired) = some d →
          resolveDevice devices defaultDevice none = Except.ok d.id)
    ∧ ((∃ e, resolveDevice devices defaultDevice none = Except.error e) ↔
        devices.all (fun d => !(d.reachable && d.paired)) = true) := by
  have hfall_ok : ∀ r, resolveFallback devices = Except.ok r →
      ∃ d ∈ devices, d.id = r ∧ d.paired = true ∧ d.reachable = true := by
    intro r h
    obtain ⟨d, hf, hid⟩ := resolveFallback_ok h
    have hmem := List.mem_of_find?_eq_some hf
    have hpred := List.find?_some hf
    simp only [Bool.and_eq_true] at hpred
    exact ⟨d, hmem, hid, hpred.2, hpred.1⟩
  have hfall_err : (∃ e, resolveFallback devices = Except.error e) ↔
      devices.all (fun d => !(d.reachable && d.paired)) = true := by
    constructor
    · rintro ⟨e, he⟩
      unfold resolveFallback at he
      cases hf : devices.find? (fun x => x.reachable && x.paired) with
      | some d => rw [hf] at he; cases he
      | none =>
          rw [List.all_eq_true]
          intro d hd
          have hnot := List.find?_eq_none.mp hf d hd
          have h2 : (d.reachable && d.paired) = false := by
            cases h3 : (d.reachable && d.paired) with
            | false => rfl
            | true => exact absurd h3 hnot
          simp [h2]
    · intro hall
      have hf : devices.find? (fun x => x.reachable && x.paired) = none := by
        rw [List.find?_eq_none]
        intro d hd
        have hall2 := List.all_eq_true.mp hall d hd
        have h2 : (d.reachable && d.paired) = false := by
          cases h3 : (d.reachable && d.paired) with
          | false => rfl
          | true => rw [h3] at hall2; simp at hall2
        simp [h2]
      refine ⟨"no paired and reachable KDE Connect device found", ?_⟩
      unfold resolveFallback
      rw [hf]
  refine ⟨?_, ?_, ?_, ?_, ?_, ?_⟩
  · intro id
    rw [resolveDevice_some_eq]
    by_cases h : idActionable devices id = true
    · simp [h]
    · simp only [h, if_false]
      constructor
      · intro hc; cases hc
      · intro hc; exact absurd hc (by simp [h])
  · intro id r h
    rw [resolveDevice_some_eq] at h
    by_cases hc : idActionable devices id = true
    · rw [if_pos hc] at h; cases h; rfl
    · rw [if_neg hc] at h; cases h
  · intro id h
    rw [resolveDevice_some_eq, if_neg]
    simp [h]
  · intro id hdd
    subst hdd
    rw [resolveDevice_none_some_eq]
    by_cases h : idActionable devices id = true
    · simp [h]
    · rw [if_neg h]
      constructor
      · intro hok
        obtain ⟨d, hmem, hid, hp, hr⟩ := hfall_ok id hok
        exact idActionable_of_mem hmem hid hp hr
      · intro hc; exact absurd hc h
  · intro hdd d hf
    cases defaultDevice with
    | none =>
        rw [resolveDevice_none_none_eq]
        unfold resolveFallback
        rw [hf]
    | some id =>
        rw [resolveDevice_none_some_eq, if_neg (by simp [hdd id rfl])]
        unfold resolveFallback
        rw [hf]
  · cases defaultDevice with
    | none => rw [resolveDevice_none_none_eq]; exact hfall_err
    | some id =>
        rw [resolveDevice_none_some_eq]
        by_cases h : idActionable devices id = true
        · rw [if_pos h]
          constructor
          · rintro ⟨e, he⟩; cases he
          · intro hall
            exfalso
            unfold idActionable at h
            rw [List.any_eq_true] at h
            obtain ⟨d, hd, hpred⟩ := h
            have := List.all_eq_true.mp hall d hd
            simp only [Bool.and_eq_true, beq_iff_eq] at hpred
            simp [hpred.1.2, hpred.2] at this
        · rw [if_neg h]; exact hfall_err

/-- C1 witness: with no explicit id and no default, the resolver returns the
first paired-and-reachable device in snapshot order. -/
theorem resolveDevice_precedence_witness :
    resolveDevice [devB, devA] none none = Except.ok "a" := by
  have h := (resolveDevice_precedence [devB, devA] none).2.2.2.2.1
    (fun id hid => by cases hid) devA (by decide)
  exact h

/-- C8 counterexample: the mapping is not idempotent on its own outputs; it
sends the output 25 to 100. -/
theorem barsToPercent_not_idempotent :
    barsToPercent 1 = 25 ∧ barsToPercent (barsToPercent 1) = 100 ∧
      barsToPercent (barsToPercent 1) ≠ barsToPercent 1 := by decide

theorem barsToPercent_le_100 (b : Nat) : barsToPercent b ≤ 100 := by
  unfold barsToPercent
  by_cases h : 4 < b
  · simp [h]
  · rw [if_neg h]
    have : b * 25 ≤ 100 := by omega
    omega

/-- C8 amended: bars 0,1,2,3,4 map to 0,25,50,75,100, every count above 4 maps
to 100, and the mapping is monotonic; it is not idempotent in general, being a
fixed point of itself exactly at the outputs 0 and 100. -/
theorem barsToPercent_mapping :
    (barsToPercent 0 = 0 ∧ barsToPercent 1 = 25 ∧ barsToPercent 2 = 50 ∧
      barsToPercent 3 = 75 ∧ barsToPercent 4 = 100)
    ∧ (∀ b, 4 < b → barsToPercent b = 100)
    ∧ (∀ a b, a ≤ b → barsToPercent a ≤ barsToPercent b)
    ∧ (∀ b, barsToPercent (barsToPercent b) = barsToPercent b ↔
        (barsToPercent b = 0 ∨ barsToPercent b = 100)) := by
  refine ⟨by decide, ?_, ?_, ?_⟩
  · intro b hb; simp [barsToPercent, hb]
  · intro a b hab
    by_cases hb : 4 < b
    · have h1 := barsToPercent_le_100 a
      have h2 : barsToPercent b = 100 := by simp [barsToPercent, hb]
      omega
    · have hb4 : b ≤ 4 := by omega
      have ha4 : a ≤ 4 := by omega
      interval_cases a <;> interval_cases b <;> decide
  · intro b
    by_cases hb : 4 < b
    · have h2 : barsToPercent b = 100 := by simp [barsToPercent, hb]
      rw [h2]; decide
    · have hb4 : b ≤ 4 := by omega
      interval_cases b <;> decide

/-- C8 witness: a bar count above 4 caps at 100, and the mapping is monotone
between 2 and 3 bars. -/
theorem barsToPercent_mapping_witness :
    barsToPercent 7 = 100 ∧ barsToPercent 2 ≤ barsToPercent 3 :=
  ⟨barsToPercent_mapping.2.1 7 (by decide), barsToPercent_mapping.2.2.1 2 3 (by decide)⟩

/-- C3: when kdeconnect-cli is entirely unavailable, refresh_state succeeds
and produces the empty-device snapshot stamped with the current instant (the
caller then installs it, so consumers see no devices rather than a stale
frozen snapshot, and the cycle reports no error). -/
theorem refresh_state_tool_unavailable (env : Env) (h : env.kdeconnectExists = false) :
    refresh_state env = Except.ok { devices := [], updated_at := some env.now } := by
  simp [refresh_state, h]

/-- C3 witness: the tool-less world yields the empty snapshot at instant 0. -/
theorem refresh_state_tool_unavailable_witness :
    refresh_state envDefault = Except.ok stEmpty0 :=
  refresh_state_tool_unavailable envDefault rfl

/-- C4: in any serialized history of whole-snapshot replaces and reads in
which every installed value is the complete output of one refresh_state
cycle, every read observes the initial snapshot or the complete output of a
single cycle, never a value mixing two cycles.  Serializing each lock-held
critical section as one step is justified by the RwLock discipline: the
snapshot is fully built before the write guard is taken, the replace is a
single whole-value assignment, and reads clone under the read guard. -/
theorem stateStore_reads_whole_snapshots (init : DaemonState) (ops : List StoreOp)
    (hops : ∀ s, StoreOp.replace s ∈ ops → ∃ env, refresh_state env = Except.ok s) :
    ∀ r ∈ runStore init ops, r = init ∨ ∃ env, refresh_state env = Except.ok r := by
  induction ops generalizing init with
  | nil => intro r hr; cases hr
  | cons op rest ih =>
      cases op with
      | replace s =>
          intro r hr
          simp only [runStore] at hr
          have hs : ∃ env, refresh_state env = Except.ok s := hops s (by simp)
          have hrest := ih s (fun s2 h2 => hops s2 (List.mem_cons_of_mem _ h2)) r hr
          rcases hrest with rfl | h
          · exact Or.inr hs
          · exact Or.inr h
      | read =>
          intro r hr
          simp only [runStore] at hr
          rcases List.mem_cons.mp hr with rfl | hr2
          · exact Or.inl rfl
          · exact ih init (fun s2 h2 => hops s2 (List.mem_cons_of_mem _ h2)) r hr2

/-- C4 witness: a read after one poller replace observes exactly the installed
cycle output. -/
theorem stateStore_reads_whole_snapshots_witness :
    stEmpty0 = stMounted ∨ ∃ env, refresh_state env = Except.ok stEmpty0 :=
  stateStore_reads_whole_snapshots stMounted [StoreOp.replace stEmpty0, StoreOp.read]
    (fun s hs => by
      have : s = stEmpty0 := by
        rcases List.mem_cons.mp hs with h | h
        · cases h; rfl
        · rcases List.mem_cons.mp h with h2 | h2
          · cases h2
          · cases h2
      subst this
      exact ⟨envDefault, by decide⟩)
    stEmpty0 (by decide)

theorem get_mount_point_ne_error (env : Env) (k : Nat) (device : String) :
    ∃ v, get_mount_point env k device = Except.ok v := by
  unfold get_mount_point
  cases run_kdeconnect env k ["--device", device, "--get-mount-point"] with
  | error e => exact ⟨none, rfl⟩
  | ok mount =>
      by_cases h : rustTrim (firstLine mount) = ""
      · exact ⟨none, by simp [h]⟩
      · exact ⟨some (rustTrim (firstLine mount)), by simp [h]⟩

theorem get_mount_point_some_ne_empty {env : Env} {k : Nat} {device p : String}
    (h : get_mount_point env k device = Except.ok (some p)) : p ≠ "" := by
  unfold get_mount_point at h
  cases hrun : run_kdeconnect env k ["--device", device, "--get-mount-point"] with
  | error e => rw [hrun] at h; cases h
  | ok mount =>
      rw [hrun] at h
      by_cases hp : rustTrim (firstLine mount) = ""
      · simp [hp] at h
      · simp only [hp, if_false] at h
        cases h
        exact hp

theorem observedMounted_of_gmp_none {env : Env} {device : String} {k : Nat}
    (hv : get_mount_point env k device = Except.ok none) :
    observedMounted env device k = none := by
  unfold observedMounted; rw [hv]

theorem observedMounted_of_gmp_some {env : Env} {device q : String} {k : Nat}
    (hv : get_mount_point env k device = Except.ok (some q)) :
    observedMounted env device k =
      (if is_mountpoint_mounted (env.procMountsAt k) q = true then some q else none) := by
  unfold observedMounted; rw [hv]

theorem wfmp_go_gmp_none {env : Env} {device : String} {must : Bool} {fuel k : Nat}
    (hv : get_mount_point env k device = Except.ok none) :
    wait_for_mount_point_go env device must (fuel+1) k =
      wait_for_mount_point_go env device must fuel (k+1) := by
  simp only [wait_for_mount_point_go, hv]

theorem wfmp_go_gmp_some {env : Env} {device q : String} {must : Bool} {fuel k : Nat}
    (hv : get_mount_point env k device = Except.ok (some q)) :
    wait_for_mount_point_go env device must (fuel+1) k =
      (if is_mountpoint_mounted (env.procMountsAt k) q = must then Except.ok q
       else wait_for_mount_point_go env device must fuel (k+1)) := by
  simp only [wait_for_mount_point_go, hv]

theorem observedMounted_some_ne_empty {env : Env} {device p : String} {k : Nat}
    (h : observedMounted env device k = some p) : p ≠ "" := by
  obtain ⟨v, hv⟩ := get_mount_point_ne_error env k device
  cases v with
  | none => rw [observedMounted_of_gmp_none hv] at h; cases h
  | some q =>
      rw [observedMounted_of_gmp_some hv] at h
      by_cases h3 : is_mountpoint_mounted (env.procMountsAt k) q = true
      · rw [if_pos h3] at h; cases h; exact get_mount_point_some_ne_empty hv
      · rw [if_neg h3] at h; cases h

theorem wfmp_go_timeout (env : Env) (device : String) :
    ∀ fuel k, (∀ j, k ≤ j → j < k + fuel → observedMounted env device j = none) →
      wait_for_mount_point_go env device true fuel k =
        Except.error ("timed out waiting for mount point for device " ++ device) := by
  intro fuel
  induction fuel with
  | zero => intro k _; rfl
  | succ n ih =>
      intro k h
      have hk : observedMounted env device k = none := h k (le_refl k) (by omega)
      have hrec := ih (k+1) (fun j hj1 hj2 => h j (by omega) (by omega))
      obtain ⟨v, hv⟩ := get_mount_point_ne_error env k device
      cases v with
      | none => rw [wfmp_go_gmp_none hv]; exact hrec
      | some q =>
          rw [observedMounted_of_gmp_some hv] at hk
          by_cases h3 : is_mountpoint_mounted (env.procMountsAt k) q = true
          · rw [if_pos h3] at hk; cases hk
          · rw [wfmp_go_gmp_some hv, if_neg h3]; exact hrec

theorem wfmp_go_success (env : Env) (device : String) :
    ∀ fuel k i p, k ≤ i → i < k + fuel →
      observedMounted env device i = some p →
      (∀ j, k ≤ j → j < i → observedMounted env device j = none) →
      wait_for_mount_point_go env device true fuel k = Except.ok p := by
  intro fuel
  induction fuel with
  | zero => intro k i p h1 h2 _ _; omega
  | succ n ih =>
      intro k i p hki hifuel hip hmin
      obtain ⟨v, hv⟩ := get_mount_point_ne_error env k device
      by_cases hik : i = k
      · subst hik
        cases v with
        | none => rw [observedMounted_of_gmp_none hv] at hip; cases hip
        | some q =>
            rw [observedMounted_of_gmp_some hv] at hip
            by_cases h3 : is_mountpoint_mounted (env.procMountsAt i) q = true
            · rw [if_pos h3] at hip
              cases hip
              rw [wfmp_go_gmp_some hv, if_pos h3]
            · rw [if_neg h3] at hip; cases hip
      · have hk : observedMounted env device k = none := hmin k (le_refl k) (by omega)
        have hrec := ih (k+1) i p (by omega) (by omega) hip
          (fun j hj1 hj2 => hmin j (by omega) hj2)
        cases v with
        | none => rw [wfmp_go_gmp_none hv]; exact hrec
        | some q =>
            rw [observedMounted_of_gmp_some hv] at hk
            by_cases h3 : is_mountpoint_mounted (env.procMountsAt k) q = true
            · rw [if_pos h3] at hk; cases hk
            · rw [wfmp_go_gmp_some hv, if_neg h3]; exact hrec

theorem mount_device_of_cmd_ok {env : Env} {device out : String}
    (hout : run_kdeconnect env 0 ["--device", device, "--mount"] = Except.ok out) :
    mount_device env device =
      (match wait_for_mount_point env device true with
       | Except.error e => Except.error e
       | Except.ok path =>
           if path = "" then Except.error ("mount point is empty for device " ++ device)
           else Except.ok path) := by
  unfold mount_device; rw [hout]

/-- C5: Mount issues the external mount command and then polls the observed
state at the 100ms interval under the 1400ms deadline, which admits exactly
maxMountPolls probes; when the mount command succeeds the call returns the
resolved path from the first probe that observes Mounted inside the window,
and the typed timeout error when no probe in the window does.  The loop is
structurally fuel-bounded, so no execution of the model waits beyond the
deadline. -/
theorem mount_device_deadline (env : Env) (device : String) :
    mountPollIntervalMs = 100 ∧ mountDeadlineMs = 1400 ∧ maxMountPolls = 14
    ∧ (∀ out, run_kdeconnect env 0 ["--device", device, "--mount"] = Except.ok out →
        (∀ j, j < maxMountPolls → observedMounted env device j = none) →
        mount_device env device =
          Except.error ("timed out waiting for mount point for device " ++ device))
    ∧ (∀ out i p, run_kdeconnect env 0 ["--device", device, "--mount"] = Except.ok out →
        i < maxMountPolls → observedMounted env device i = some p →
        (∀ j, j < i → observedMounted env device j = none) →
        mount_device env device = Except.ok p) := by
  refine ⟨rfl, rfl, rfl, ?_, ?_⟩
  · intro out hout hnone
    rw [mount_device_of_cmd_ok hout]
    have hw : wait_for_mount_point env device true =
        Except.error ("timed out waiting for mount point for device " ++ device) :=
      wfmp_go_timeout env device maxMountPolls 0 (fun j _ hj2 => hnone j (by omega))
    rw [hw]
  · intro out i p hout hi hip hmin
    rw [mount_device_of_cmd_ok hout]
    have hw : wait_for_mount_point env device true = Except.ok p :=
      wfmp_go_success env device maxMountPolls 0 i p (by omega) (by omega) hip
        (fun j _ hj2 => hmin j hj2)
    rw [hw]
    show (if p = "" then Except.error ("mount point is empty for device " ++ device)
      else Except.ok p) = Except.ok p
    rw [if_neg (observedMounted_some_ne_empty hip)]

/-- C5 witness: in a world already mounted at /mnt/x, Mount converges on the
first probe and returns the path. -/
theorem mount_device_deadline_witness :
    mount_device envMounted "d1" = Except.ok "/mnt/x" :=
  (mount_device_deadline envMounted "d1").2.2.2.2 "" 0 "/mnt/x" (by decide) (by decide)
    (by decide) (fun j hj => absurd hj (Nat.not_lt_zero j))

theorem acceptedTriggers_lower_bound :
    ∀ (l : List Int) (last a : Int), a ∈ acceptedTriggers last l → last + 200 ≤ a := by
  intro l
  induction l with
  | nil => intro last a ha; cases ha
  | cons t ts ih =>
      intro last a ha
      unfold acceptedTriggers at ha
      by_cases h : t - last < debounceWindowMs
      · rw [if_pos h] at ha; exact ih last a ha
      · rw [if_neg h] at ha
        unfold debounceWindowMs at h
        rcases List.mem_cons.mp ha with rfl | ha2
        · omega
        · have := ih t a ha2
          omega

theorem acceptedTriggers_chain (l : List Int) :
    ∀ last, List.Chain' (fun a b : Int => a + 200 ≤ b) (acceptedTriggers last l) := by
  induction l with
  | nil => intro last; simp [acceptedTriggers]
  | cons t ts ih =>
      intro last
      unfold acceptedTriggers
      by_cases h : t - last < debounceWindowMs
      · rw [if_pos h]; exact ih last
      · rw [if_neg h]
        rw [List.chain'_cons']
        refine ⟨?_, ih t⟩
        intro y hy
        exact acceptedTriggers_lower_bound ts t y (List.mem_of_mem_head? hy)

/-- C6: debounce of the event watcher.  A qualifying signal is accepted
exactly when at least 200ms elapsed since the last accepted trigger (an
accepted signal resets the window, a dropped one does not); consequently any
two accepted triggers are at least 200ms apart, two signals 50ms apart yield
one refresh and two signals 300ms apart yield two (with the watcher's initial
window already open, last_refresh being seeded one second in the past). -/
theorem eventWatcher_debounce (last t : Int) (ts : List Int) :
    debounceWindowMs = 200
    ∧ (200 ≤ t - last → acceptedTriggers last (t :: ts) = t :: acceptedTriggers t ts)
    ∧ (t - last < 200 → acceptedTriggers last (t :: ts) = acceptedTriggers last ts)
    ∧ List.Chain' (fun a b : Int => a + 200 ≤ b) (acceptedTriggers last ts)
    ∧ acceptedTriggers (-1000) [0, 50] = [0]
    ∧ acceptedTriggers (-1000) [0, 300] = [0, 300] := by
  refine ⟨rfl, ?_, ?_, acceptedTriggers_chain ts last, by decide, by decide⟩
  · intro h
    have h200 : debounceWindowMs = 200 := rfl
    show (if t - last < debounceWindowMs then acceptedTriggers last ts
      else t :: acceptedTriggers t ts) = t :: acceptedTriggers t ts
    rw [h200, if_neg (by omega : ¬ (t - last < (200 : Int)))]
  · intro h
    have h200 : debounceWindowMs = 200 := rfl
    show (if t - last < debounceWindowMs then acceptedTriggers last ts
      else t :: acceptedTriggers t ts) = acceptedTriggers last ts
    rw [h200, if_pos (by omega : t - last < (200 : Int))]

/-- C6 witness: a single signal with the window open is accepted. -/
theorem eventWatcher_debounce_witness :
    acceptedTriggers (-1000) [0] = [0] := by
  have h := (eventWatcher_debounce (-1000) 0 []).2.1 (by decide)
  rw [h]
  rfl

theorem mem_foldl_addPlaceholder (ids : List String) :
    ∀ (acc : List DeviceState) (d : DeviceState), d ∈ ids.foldl addPlaceholder acc →
      d ∈ acc ∨ ∃ id, d = placeholderDevice id := by
  induction ids with
  | nil => intro acc d hd; exact Or.inl hd
  | cons i is ih =>
      intro acc d hd
      rcases ih (addPlaceholder acc i) d hd with h | h
      · unfold addPlaceholder at h
        by_cases hc : acc.any (fun x => x.id == i) = true
        · rw [if_pos hc] at h; exact Or.inl h
        · rw [if_neg hc] at h
          rcases List.mem_append.mp h with h2 | h2
          · exact Or.inl h2
          · rcases List.mem_singleton.mp h2 with rfl
            exact Or.inr ⟨i, rfl⟩
      · exact Or.inr h

theorem refresh_state_devices_shape {env : Env} {st : DaemonState}
    (h : refresh_state env = Except.ok st) :
    ∀ d ∈ st.devices,
      (∃ reachable p, d = pairedEntry env reachable p) ∨ ∃ id, d = placeholderDevice id := by
  unfold refresh_state at h
  by_cases hk : env.kdeconnectExists = false
  · rw [if_pos hk] at h
    cases h
    intro d hd
    cases hd
  · rw [if_neg hk] at h
    cases hld : list_devices env with
    | error e => rw [hld] at h; cases h
    | ok names =>
        rw [hld] at h
        cases hlr : list_reachable_ids env with
        | error e => rw [hlr] at h; cases h
        | ok reachable =>
            rw [hlr] at h
            cases h
            intro d hd
            rcases mem_foldl_addPlaceholder reachable _ d hd with h2 | h2
            · rcases List.mem_map.mp h2 with ⟨p, _, hpe⟩
              exact Or.inl ⟨reachable, p, hpe.symm⟩
            · exact Or.inr h2

theorem read_mount_state_mounted_point {env : Env} {k : Nat} {device : String}
    {b : Bool} {mp : Option String}
    (h : read_mount_state_for env k device = Except.ok (b, mp)) (hb : b = true) :
    ∃ p, mp = some p ∧ p ≠ "" := by
  subst hb
  unfold read_mount_state_for at h
  obtain ⟨v, hv⟩ := get_mount_point_ne_error env k device
  rw [hv] at h
  cases v with
  | none => cases h
  | some q =>
      have h3 := Except.ok.inj h
      have hmp : Option.filter (fun p => !p.isEmpty) (some q) = mp :=
        congrArg Prod.snd h3
      have hq : q ≠ "" := get_mount_point_some_ne_empty hv
      have hqe : q.isEmpty = false := by
        cases hqe2 : q.isEmpty with
        | false => rfl
        | true => exact absurd ((String.isEmpty_iff q).mp hqe2) hq
      refine ⟨q, ?_, hq⟩
      rw [← hmp]
      simp [Option.filter, hqe]

theorem read_mount_state_degrade {env : Env} {k : Nat} {device e : String}
    (h : run_kdeconnect env k ["--device", device, "--get-mount-point"] = Except.error e) :
    read_mount_state_for env k device = Except.ok (false, none) := by
  have hg : get_mount_point env k device = Except.ok none := by
    unfold get_mount_point; rw [h]
  unfold read_mount_state_for
  rw [hg]
  rfl

/-- C10: in every snapshot a poll cycle produces, a device marked mounted
carries a present, non-empty mount point; and when the mount query itself
fails, both fields degrade together to mounted false and no mount point. -/
theorem refresh_state_mounted_has_mount_point (env : Env) :
    (∀ st, refresh_state env = Except.ok st →
      ∀ d ∈ st.devices, d.mounted = true → ∃ p, d.mount_point = some p ∧ p ≠ "")
    ∧ (∀ k device e,
        run_kdeconnect env k ["--device", device, "--get-mount-point"] = Except.error e →
        read_mount_state_for env k device = Except.ok (false, none)) := by
  constructor
  · intro st hst d hd hm
    rcases refresh_state_devices_shape hst d hd with ⟨reachable, p, rfl⟩ | ⟨id, rfl⟩
    · unfold pairedEntry at hm ⊢
      cases hrm : read_mount_state_for env 0 p.1 with
      | error e =>
          rw [hrm] at hm
          exact Bool.noConfusion (show false = true from hm)
      | ok ms =>
          rw [hrm] at hm
          have hm2 : ms.1 = true := hm
          obtain ⟨q, hq1, hq2⟩ := @read_mount_state_mounted_point env 0 p.1 ms.1 ms.2
            (by rw [hrm]) hm2
          refine ⟨q, ?_, hq2⟩
          exact hq1
    · cases hm
  · intro k device e h
    exact read_mount_state_degrade h

/-- C10 witness: the mounted device in the envMounted snapshot indeed carries
a mount point. -/
theorem refresh_state_mounted_has_mount_point_witness :
    devMounted.mount_point.isSome = true := by
  obtain ⟨p, hp, -⟩ := (refresh_state_mounted_has_mount_point envMounted).1 stMounted
    (by decide) devMounted (by decide) (by decide)
  rw [hp]
  rfl

theorem u8TryFromInt_le {v : Int} {n : Nat} (h : u8TryFromInt v = some n) : n ≤ 255 := by
  unfold u8TryFromInt at h
  by_cases hc : 0 ≤ v ∧ v ≤ 255
  · rw [if_pos hc] at h
    cases h
    omega
  · rw [if_neg hc] at h
    cases h

theorem battery_field_le {env : Env} {device : String} {c : Option Nat} {ch : Option Bool}
    {n : Nat} (h : read_battery_for env device = Except.ok (c, ch)) (hc : c = some n) :
    n ≤ 255 := by
  subst hc
  unfold read_battery_for at h
  cases h1 : read_dbus_int_prop env device "battery" "org.kde.kdeconnect.device.battery"
      "charge" with
  | error e => rw [h1] at h; cases h
  | ok chargeI =>
      rw [h1] at h
      cases h2 : read_dbus_bool_prop env device "battery" "org.kde.kdeconnect.device.battery"
          "isCharging" with
      | error e => rw [h2] at h; cases h
      | ok charging =>
          rw [h2] at h
          have h3 := Except.ok.inj h
          have hfst : chargeI.bind u8TryFromInt = some n := congrArg Prod.fst h3
          obtain ⟨v, -, hv2⟩ := Option.bind_eq_some.mp hfst
          exact u8TryFromInt_le hv2

/-- C9 counterexample: a bus battery charge reply of 150 survives u8::try_from
unclamped and lands in the snapshot as battery_percent 150, outside the
documented 0 to 100 range. -/
theorem refresh_state_battery_above_100 :
    refresh_state envBattery150 = Except.ok stBattery150
    ∧ devBattery150.battery_percent = some 150 ∧ ¬ (150 ≤ 100) :=
  ⟨by decide, by decide, by decide⟩

/-- C9 amended: battery_percent, when present, is the externally reported
charge filtered only through u8::try_from, so it always lies in 0..=255 but
is not clamped to 100; the 0..=100 bound holds only when the external
subsystem reports a charge in that range. -/
theorem refresh_state_battery_le_255 (env : Env) :
    ∀ st, refresh_state env = Except.ok st →
      ∀ d ∈ st.devices, ∀ v, d.battery_percent = some v → v ≤ 255 := by
  intro st hst d hd v hv
  rcases refresh_state_devices_shape hst d hd with ⟨reachable, p, rfl⟩ | ⟨id, rfl⟩
  · unfold pairedEntry at hv
    cases hb : read_battery_for env p.1 with
    | error e =>
        rw [hb] at hv
        cases hv
    | ok bat =>
        rw [hb] at hv
        exact battery_field_le hb hv
  · cases hv

/-- C9 witness: the out-of-range charge 150 still respects the u8 bound. -/
theorem refresh_state_battery_le_255_witness : (150 : Nat) ≤ 255 :=
  refresh_state_battery_le_255 envBattery150 stBattery150 (by decide) devBattery150
    (by decide) 150 (by decide)

/-- C7 counterexample: with only the player property read failing (title and
the other fields would read fine), the whole Status operation fails with the
bus error instead of defaulting the player field, so one field read failure
does make Status fail. -/
theorem media_status_fails_on_field_read_error :
    media_status envMediaCex mediaPathD1 mprisIface = Except.error "dbus property not available"
    ∧ run_busctl_get_property envMediaCex mediaPathD1 mprisIface "title" =
        Except.ok "s \x22Spotify\x22" :=
  ⟨by decide, by decide⟩

/-- C7 amended: Status reads the five properties in sequence; a successful bus
read whose payload does not parse falls back to the documented default for
that field and Status still succeeds, but a failed bus read of a field aborts
the whole Status with that error (shown for the first field read). -/
theorem media_status_parse_defaults (env : Env) (path iface : String) :
    ((∀ prop, prop ∈ ["player", "title", "artist", "isPlaying", "volume"] →
        (run_busctl_get_property env path iface prop).isOk = true) →
      (media_status env path iface).isOk = true)
    ∧ (∀ e, run_busctl_get_property env path iface "player" = Except.error e →
        media_status env path iface = Except.error e) := by
  constructor
  · intro h
    have hex : ∀ prop, prop ∈ ["player", "title", "artist", "isPlaying", "volume"] →
        ∃ v, run_busctl_get_property env path iface prop = Except.ok v := by
      intro prop hp
      cases hx : run_busctl_get_property env path iface prop with
      | ok v => exact ⟨v, rfl⟩
      | error e =>
          have hko := h prop hp
          rw [hx] at hko
          cases hko
    obtain ⟨v1, hv1⟩ := hex "player" (by simp)
    obtain ⟨v2, hv2⟩ := hex "title" (by simp)
    obtain ⟨v3, hv3⟩ := hex "artist" (by simp)
    obtain ⟨v4, hv4⟩ := hex "isPlaying" (by simp)
    obtain ⟨v5, hv5⟩ := hex "volume" (by simp)
    unfold media_status
    rw [hv1, hv2, hv3, hv4, hv5]
    rfl
  · intro e he
    unfold media_status
    rw [he]

/-- C7 witness: when every read succeeds but nothing parses, Status succeeds
with all fields defaulted. -/
theorem media_status_parse_defaults_witness :
    (media_status envMediaDefaults mediaPathD1 mprisIface).isOk = true :=
  (media_status_parse_defaults envMediaDefaults mediaPathD1 mprisIface).1
    (fun _ _ => rfl)

/-- C2 counterexample: a Ping naming a device that fails resolution makes
handle_stream return Err before any response is written, so that failing
request is answered by a closed connection, not an ok false response. -/
theorem handle_stream_drops_response_on_resolve_failure :
    handle_stream envDefault sharedEmpty (Except.ok (IpcRequest.ping none (some "x"))) =
      Except.error ("device \x27x\x27 is not both paired and reachable") := by decide

/-- C2 amended: into_response converts every operation failure into an ok
false response carrying the error message, and the GetState, ShareFile,
ShareUrl, Pair, Unpair, RefreshNetwork, ToggleMount and Media arms always
write a response; but the ShareClipboard, Ping, Find, Mount and OpenMount
arms apply the question-mark to read_clipboard or resolve_device first, and
those failures (like a malformed request) leave the handler as Err with no
response written — only those arms can do so. -/
theorem handle_stream_failure_conversion (env : Env) (sh : Shared) (req : IpcRequest) :
    (∀ e, into_response (Except.error e) = { ok := false, message := some e, state := none })
    ∧ (∀ m, into_response (Except.ok m) = { ok := true, message := some m, state := none })
    ∧ (alwaysWritesResponse req = true →
        ∃ resp, handle_stream env sh (Except.ok req) = Except.ok resp)
    ∧ (∀ e, handle_stream env sh (Except.ok req) = Except.error e →
        alwaysWritesResponse req = false)
    ∧ (∀ e, handle_stream env sh (Except.error e) = Except.error e) := by
  refine ⟨fun e => rfl, fun m => rfl, ?_, ?_, fun e => rfl⟩
  · intro h
    cases req with
    | getState => exact ⟨_, rfl⟩
    | shareFile path device => exact ⟨_, rfl⟩
    | shareUrl url device => exact ⟨_, rfl⟩
    | shareClipboard device => exact Bool.noConfusion h
    | ping message device => exact Bool.noConfusion h
    | pair device => exact ⟨_, rfl⟩
    | unpair device => exact ⟨_, rfl⟩
    | find device => exact Bool.noConfusion h
    | refreshNetwork => exact ⟨_, rfl⟩
    | mount device => exact Bool.noConfusion h
    | openMount device => exact Bool.noConfusion h
    | toggleMount device => exact ⟨_, rfl⟩
    | media device action => exact ⟨_, rfl⟩
  · intro e he
    cases req with
    | getState => exact Except.noConfusion he
    | shareFile path device => exact Except.noConfusion he
    | shareUrl url device => exact Except.noConfusion he
    | shareClipboard device => rfl
    | ping message device => rfl
    | pair device => exact Except.noConfusion he
    | unpair device => exact Except.noConfusion he
    | find device => rfl
    | refreshNetwork => exact Except.noConfusion he
    | mount device => rfl
    | openMount device => rfl
    | toggleMount device => exact Except.noConfusion he
    | media device action => exact Except.noConfusion he

/-- C2 witness: a Pair whose external command fails still gets a response. -/
theorem handle_stream_failure_conversion_witness :
    alwaysWritesResponse (IpcRequest.pair "d") = true ∧
      (handle_stream envDefault sharedEmpty (Except.ok (IpcRequest.pair "d"))).isOk = true := by
  refine ⟨rfl, ?_⟩
  obtain ⟨resp, hr⟩ := (handle_stream_failure_conversion envDefault sharedEmpty
    (IpcRequest.pair "d")).2.2.1 rfl
  rw [hr]
  rfl

end Hyprconnect
